import Mathlib

/-!
Shallow embedding of the authentication subsystem of the meetai repository.

The model follows `src/app/actions/auth.ts` (server actions: `signin`,
`getCurrentUser`, `forgotPassword`, `resetPassword`,
`handleGoogleOAuthCallback`), the Drizzle schema (tables `users`,
`sessions`, `password_reset_tokens`) and the access-guard middleware
(`middleware.ts`).

Database tables are lists of rows; a `select ... where eq(...) ... limit(1)`
becomes a first-match lookup, a `delete ... where` a filter, an
`update ... where` a map.  External effects (bcrypt, the OAuth provider
token exchange, email sending, fresh UUID/session-id generation) are
passed in as explicit function or value parameters.  Each action is
modelled after its zod `safeParse` succeeded: the claims under
verification quantify over well-formed inputs, and the parse step never
touches the database or the cookie store.  Times are integers
(milliseconds since epoch, as in JavaScript `Date`).
-/

namespace MeetAI

/-- A row of the `users` table (Drizzle schema `usersTable`). -/
structure User where
  id : Nat
  name : String
  email : String
  hashed_password : Option String
  email_verified : Bool
  provider : String
  provider_id : Option String
deriving Repr, DecidableEq

/-- A row of the `sessions` table (Drizzle schema `sessionsTable`). -/
structure SessionRow where
  id : String
  userId : Nat
  expiresAt : Int
deriving Repr, DecidableEq

/-- A row of the `password_reset_tokens` table
(Drizzle schema `passwordResetTokensTable`). -/
structure ResetTokenRow where
  token : String
  userId : Nat
  expiresAt : Int
deriving Repr, DecidableEq

/-- The persistent store: the three tables of the schema. -/
structure DB where
  users : List User
  sessions : List SessionRow
  resetTokens : List ResetTokenRow
deriving Repr, DecidableEq

/-- `db.select().from(usersTable).where(eq(usersTable.email, email)).limit(1)`:
first user row whose `email` column equals the argument. -/
def findUserByEmail : List User → String → Option User
  | [], _ => none
  | u :: rest, e => if u.email = e then some u else findUserByEmail rest e

/-- `db.select().from(usersTable).where(eq(usersTable.id, userId)).limit(1)`,
with `userId` the (possibly negative) result of `parseInt`. -/
def findUserById : List User → Int → Option User
  | [], _ => none
  | u :: rest, n => if (u.id : Int) = n then some u else findUserById rest n

/-- `db.select().from(usersTable).where(eq(usersTable.provider_id, googleId)).limit(1)`. -/
def findUserByProviderId : List User → String → Option User
  | [], _ => none
  | u :: rest, pid =>
      if u.provider_id = some pid then some u else findUserByProviderId rest pid

/-- `db.select().from(passwordResetTokensTable)
      .where(and(eq(token, t), gt(expiresAt, now))).limit(1)`:
first token row with that token string and a strictly later expiry. -/
def findValidToken : List ResetTokenRow → String → Int → Option ResetTokenRow
  | [], _, _ => none
  | r :: rest, t, now =>
      if r.token = t ∧ now < r.expiresAt then some r
      else findValidToken rest t now

/-- `db.delete(passwordResetTokensTable).where(eq(userId, uid))`. -/
def removeTokensForUser (uid : Nat) : List ResetTokenRow → List ResetTokenRow
  | [] => []
  | r :: rest =>
      if r.userId = uid then removeTokensForUser uid rest
      else r :: removeTokensForUser uid rest

/-- `db.delete(passwordResetTokensTable).where(eq(token, t))`. -/
def removeTokensNamed (t : String) : List ResetTokenRow → List ResetTokenRow
  | [] => []
  | r :: rest =>
      if r.token = t then removeTokensNamed t rest
      else r :: removeTokensNamed t rest

/-- `db.update(usersTable).set({hashed_password}).where(eq(usersTable.id, uid))`. -/
def setHashedPassword (uid : Nat) (hp : String) (us : List User) : List User :=
  us.map (fun u => if u.id = uid then { u with hashed_password := some hp } else u)

/-- JavaScript `parseInt(s, 10)`: skip leading whitespace, read an optional
sign, then the longest prefix of decimal digits; `NaN` (here `none`) when
no digit follows. -/
def parseIntJS10 (s : String) : Option Int :=
  let stripped := s.toList.dropWhile (fun c => c = ' ' ∨ c = '\t' ∨ c = '\n' ∨ c = '\r')
  let signAndRest : Int × List Char :=
    match stripped with
    | '-' :: cs => (-1, cs)
    | '+' :: cs => (1, cs)
    | cs => (1, cs)
  let digits := signAndRest.2.takeWhile Char.isDigit
  if digits.isEmpty then none
  else some (signAndRest.1 * (digits.foldl (fun acc c => acc * 10 + (c.toNat - 48)) 0 : Nat))

/-- Field-scoped error payload, as returned in the `error` property of a
failed action result: a list of (field, messages) pairs. -/
def FieldErrors := List (String × List String)
deriving instance Repr, DecidableEq for FieldErrors

/-- Result of the `signin` action after it passed input validation:
either a failure result with field errors, or the success path, which
sets the `session` cookie to `cookieValue` and redirects to
`redirectTo`. -/
inductive SigninOutcome where
  | failure (error : FieldErrors)
  | success (cookieValue : String) (redirectTo : String)
deriving Repr, DecidableEq

/-- The `signin` server action (auth.ts lines 111-155) after a successful
parse.  `compare` stands for `bcrypt.compare`.  On success the code sets
`cookieStore.set('session', user.id.toString(), ...)` and redirects to
`/dashboard`. -/
def signin (compare : String → String → Bool) (db : DB)
    (email password : String) : SigninOutcome :=
  match findUserByEmail db.users email with
  | none => .failure [("email", ["Invalid credentials"])]
  | some user =>
    match user.hashed_password with
    | none => .failure [("email", ["Invalid credentials"])]
    | some hp =>
      if compare password hp then .success (toString user.id) "/dashboard"
      else .failure [("email", ["Invalid credentials"])]

/-- The `getCurrentUser` server action (auth.ts lines 157-187): read the
`session` cookie, `parseInt` it, look the user up by id.  The sessions
table and the clock are never consulted. -/
def getCurrentUser (db : DB) (sessionCookie : Option String) : Option User :=
  match sessionCookie with
  | none => none
  | some tok =>
    match parseIntJS10 tok with
    | none => none
    | some n => findUserById db.users n

/-- Result of the `forgotPassword` / `resetPassword` actions: a success
with a message string, or a failure with field errors. -/
inductive ActionResult where
  | success (message : String)
  | failure (error : FieldErrors)
deriving Repr, DecidableEq

/-- The generic message returned by `forgotPassword` on every path. -/
def genericResetMsg : String :=
  "If an account with that email exists, we sent a password reset link."

/-- The `forgotPassword` server action (auth.ts lines 197-264) after a
successful parse.  `freshToken` stands for the `uuidv4()` call, `now` for
`new Date()`; `addHours(now, 1)` is `now + 3600000` ms.  `senderConfigured`
is whether `EMAIL_FROM` is set; `emailSendOk` is the outcome of
`resend.emails.send`, which is only logged.  Returns the new store and
the result. -/
def forgotPassword (db : DB) (email : String) (freshToken : String)
    (now : Int) (senderConfigured emailSendOk : Bool) : DB × ActionResult :=
  match findUserByEmail db.users email with
  | none => (db, .success genericResetMsg)
  | some user =>
    let expiresAt := now + 3600000
    let afterDelete := removeTokensForUser user.id db.resetTokens
    let afterInsert := afterDelete ++ [⟨freshToken, user.id, expiresAt⟩]
    let db2 : DB := { db with resetTokens := afterInsert }
    if senderConfigured then
      match emailSendOk with
      | true => (db2, .success genericResetMsg)
      | false => (db2, .success genericResetMsg)
    else (db2, .success genericResetMsg)

/-- The `resetPassword` server action (auth.ts lines 267-318) after a
successful parse (so the two password fields already matched and met the
length bound).  `hash` stands for `bcrypt.hash`; `now` for `new Date()`.
On success the user's hash is updated and every row with that token is
deleted. -/
def resetPassword (hash : String → String) (db : DB)
    (token password : String) (now : Int) : DB × ActionResult :=
  match findValidToken db.resetTokens token now with
  | none => (db, .failure [("_form", ["Invalid or expired reset token."])])
  | some validToken =>
    match findUserById db.users (validToken.userId : Int) with
    | none => (db, .failure [("_form", ["An unexpected error occurred."])])
    | some user =>
      let hashed := hash password
      let db1 : DB := { db with users := setHashedPassword user.id hashed db.users }
      let db2 : DB := { db1 with resetTokens := removeTokensNamed token db1.resetTokens }
      (db2, .success "Your password has been successfully reset.")

/-- The query and cookie inputs of `handleGoogleOAuthCallback`:
`searchParams.get('code')`, `searchParams.get('state')`, and the
`google_oauth_state` / `google_code_verifier` cookies. -/
structure CallbackInput where
  queryCode : Option String
  queryState : Option String
  cookieState : Option String
  cookieVerifier : Option String
deriving Repr, DecidableEq

/-- The profile claims extracted from the provider after token exchange:
`googleUser.sub`, `googleUser.email`, `googleUser.name`. -/
structure GoogleProfile where
  sub : String
  email : Option String
  name : Option String
deriving Repr, DecidableEq

/-- The value returned by `handleGoogleOAuthCallback`. -/
inductive CallbackResult where
  | ok (userId : Nat)
  | err (error : String)
deriving Repr, DecidableEq

/-- Full observable outcome of one `handleGoogleOAuthCallback` run: the
returned value, the store afterwards, whether each transient cookie was
deleted, whether the provider was contacted (`validateCallback`), and the
session cookie written, if any. -/
structure CallbackOutcome where
  result : CallbackResult
  db : DB
  stateCookieDeleted : Bool
  verifierCookieDeleted : Bool
  providerCalled : Bool
  sessionCookie : Option (String × String)
deriving Repr, DecidableEq

/-- The `handleGoogleOAuthCallback` action (auth.ts lines 349-430).
`validateCb` stands for `googleOAuth.validateCallback` (`none` = the call
threw, caught by the outer handler).  `freshUserId` is the identity value
the insert would generate, `freshSessionId` the Lucia-generated session
id, `sessionExpiresAt` its expiry.  `auth.createUser` hits the `users`
email uniqueness constraint when a row with that email exists, which the
code catches and maps to the `database error` result; the `provider_id`
constraint cannot fire on this path because the lookup just found no row
with that subject id.  The guard at line 355 returns before the two
cookie deletions at lines 360-361. -/
def handleGoogleOAuthCallback (validateCb : String → Option GoogleProfile)
    (freshUserId : Nat) (freshSessionId : String) (sessionExpiresAt : Int)
    (db : DB) (input : CallbackInput) : CallbackOutcome :=
  match input.queryCode, input.queryState, input.cookieState, input.cookieVerifier with
  | some code, some state, some storedState, some _storedVerifier =>
    if state ≠ storedState then
      ⟨.err "Authentication failed (state or code verifier mismatch).",
       db, false, false, false, none⟩
    else
      match validateCb code with
      | none => ⟨.err "Authentication failed.", db, true, true, true, none⟩
      | some googleUser =>
        match googleUser.email with
        | none =>
          ⟨.err "Authentication failed (email missing from Google).",
           db, true, true, true, none⟩
        | some userEmail =>
          match findUserByProviderId db.users googleUser.sub with
          | some existingUser =>
            let sess : SessionRow := ⟨freshSessionId, existingUser.id, sessionExpiresAt⟩
            ⟨.ok existingUser.id, { db with sessions := db.sessions ++ [sess] },
             true, true, true, some ("auth_session", freshSessionId)⟩
          | none =>
            if (findUserByEmail db.users userEmail).isSome then
              ⟨.err "database error", db, true, true, true, none⟩
            else
              let newUser : User :=
                { id := freshUserId
                  name := googleUser.name.getD "Google User"
                  email := userEmail
                  hashed_password := none
                  email_verified := true
                  provider := "google"
                  provider_id := some googleUser.sub }
              let sess : SessionRow := ⟨freshSessionId, freshUserId, sessionExpiresAt⟩
              ⟨.ok freshUserId,
               { db with users := db.users ++ [newUser],
                         sessions := db.sessions ++ [sess] },
               true, true, true, some ("auth_session", freshSessionId)⟩
  | _, _, _, _ =>
    ⟨.err "Authentication failed (state or code verifier mismatch).",
     db, false, false, false, none⟩

/-- Whether the guard at line 355 of auth.ts passes: all four values are
present and the query state equals the stored cookie state. -/
def callbackValidationPasses (input : CallbackInput) : Prop :=
  ∃ code state storedState storedVerifier,
    input.queryCode = some code ∧ input.queryState = some state ∧
    input.cookieState = some storedState ∧
    input.cookieVerifier = some storedVerifier ∧ state = storedState

instance (input : CallbackInput) : Decidable (callbackValidationPasses input) := by
  unfold callbackValidationPasses
  rcases input with ⟨c, s, st, v⟩
  rcases c with _ | c <;> rcases s with _ | s <;>
    rcases st with _ | st <;> rcases v with _ | v
  all_goals simp
  all_goals infer_instance

/-- Result of the access-guard middleware: a redirect (target path and
its query parameters) or pass-through (`NextResponse.next()`). -/
inductive MiddlewareResult where
  | redirect (path : String) (params : List (String × String))
  | next
deriving Repr, DecidableEq

/-- JavaScript `String.prototype.startsWith` over character lists: the
second list is a leading segment of the first. -/
def startsWithJS : List Char → List Char → Bool
  | _, [] => true
  | [], _ :: _ => false
  | c :: cs, p :: ps => c = p && startsWithJS cs ps

/-- `pathname.startsWith(route)` from middleware.ts. -/
def strStartsWith (s p : String) : Bool := startsWithJS s.toList p.toList

/-- `const protectedRoutes = ['/dashboard']` from middleware.ts. -/
def protectedRoutes : List String := ["/dashboard"]

/-- The access-guard middleware (middleware.ts lines 9-28).
`sessionCookie` is `request.cookies.get('session')?.value`
(`none` when the cookie is absent).  `!!session` is JavaScript
truthiness: false for a missing cookie and for an empty value.  The guard
takes no store: it performs no lookup. -/
def middleware (pathname : String) (sessionCookie : Option String) : MiddlewareResult :=
  let isAuthenticated : Bool :=
    match sessionCookie with
    | none => false
    | some v => v ≠ ""
  let isProtectedRoute := protectedRoutes.any (fun route => strStartsWith pathname route)
  if isProtectedRoute ∧ ¬isAuthenticated then
    .redirect "/signin" [("callbackUrl", pathname)]
  else .next

/-! ## Helper lemmas about the store operations -/

theorem findValidToken_isSome_iff (l : List ResetTokenRow) (t : String) (now : Int) :
    (findValidToken l t now).isSome ↔ ∃ r ∈ l, r.token = t ∧ now < r.expiresAt := by
  induction l with
  | nil => simp [findValidToken]
  | cons r rest ih =>
    unfold findValidToken
    by_cases h : r.token = t ∧ now < r.expiresAt
    · rw [if_pos h]
      simp only [Option.isSome_some, true_iff]
      exact ⟨r, List.mem_cons_self r rest, h⟩
    · rw [if_neg h, ih]
      constructor
      · rintro ⟨x, hx, hxp⟩
        exact ⟨x, List.mem_cons_of_mem r hx, hxp⟩
      · rintro ⟨x, hx, hxp⟩
        rcases List.mem_cons.mp hx with hx | hx
        · subst hx; exact absurd hxp h
        · exact ⟨x, hx, hxp⟩

theorem findValidToken_eq_none_iff (l : List ResetTokenRow) (t : String) (now : Int) :
    findValidToken l t now = none ↔ ¬∃ r ∈ l, r.token = t ∧ now < r.expiresAt := by
  rw [← findValidToken_isSome_iff, ← Option.not_isSome_iff_eq_none]

theorem mem_removeTokensNamed (t : String) (l : List ResetTokenRow) (r : ResetTokenRow) :
    r ∈ removeTokensNamed t l ↔ r ∈ l ∧ r.token ≠ t := by
  induction l with
  | nil => simp [removeTokensNamed]
  | cons x rest ih =>
    unfold removeTokensNamed
    by_cases h : x.token = t
    · rw [if_pos h, ih]
      constructor
      · rintro ⟨hr, hrt⟩
        exact ⟨List.mem_cons_of_mem x hr, hrt⟩
      · rintro ⟨hr, hrt⟩
        rcases List.mem_cons.mp hr with hrx | hrx
        · exact absurd (by rw [hrx]; exact h) hrt
        · exact ⟨hrx, hrt⟩
    · rw [if_neg h]
      constructor
      · intro hr
        rcases List.mem_cons.mp hr with hrx | hrx
        · subst hrx
          exact ⟨List.mem_cons_self r rest, h⟩
        · obtain ⟨h1, h2⟩ := ih.mp hrx
          exact ⟨List.mem_cons_of_mem x h1, h2⟩
      · rintro ⟨hr, hrt⟩
        rcases List.mem_cons.mp hr with hrx | hrx
        · subst hrx; exact List.mem_cons_self r _
        · exact List.mem_cons_of_mem x (ih.mpr ⟨hrx, hrt⟩)

theorem mem_removeTokensForUser (uid : Nat) (l : List ResetTokenRow) (r : ResetTokenRow) :
    r ∈ removeTokensForUser uid l ↔ r ∈ l ∧ r.userId ≠ uid := by
  induction l with
  | nil => simp [removeTokensForUser]
  | cons x rest ih =>
    unfold removeTokensForUser
    by_cases h : x.userId = uid
    · rw [if_pos h, ih]
      constructor
      · rintro ⟨hr, hrt⟩
        exact ⟨List.mem_cons_of_mem x hr, hrt⟩
      · rintro ⟨hr, hrt⟩
        rcases List.mem_cons.mp hr with hrx | hrx
        · exact absurd (by rw [hrx]; exact h) hrt
        · exact ⟨hrx, hrt⟩
    · rw [if_neg h]
      constructor
      · intro hr
        rcases List.mem_cons.mp hr with hrx | hrx
        · subst hrx
          exact ⟨List.mem_cons_self r rest, h⟩
        · obtain ⟨h1, h2⟩ := ih.mp hrx
          exact ⟨List.mem_cons_of_mem x h1, h2⟩
      · rintro ⟨hr, hrt⟩
        rcases List.mem_cons.mp hr with hrx | hrx
        · subst hrx; exact List.mem_cons_self r _
        · exact List.mem_cons_of_mem x (ih.mpr ⟨hrx, hrt⟩)

theorem findValidToken_removeTokensNamed (t : String) (l : List ResetTokenRow) (now : Int) :
    findValidToken (removeTokensNamed t l) t now = none := by
  rw [findValidToken_eq_none_iff]
  rintro ⟨r, hr, hrt, _⟩
  exact ((mem_removeTokensNamed t l r).mp hr).2 hrt

/-- After `forgotPassword` finds the user, the store it returns carries the
user's token rows replaced by the single fresh row, on every email branch. -/
theorem forgotPassword_store (db : DB) (email freshToken : String) (now : Int)
    (senderConfigured emailSendOk : Bool) (user : User)
    (huser : findUserByEmail db.users email = some user) :
    (forgotPassword db email freshToken now senderConfigured emailSendOk).1 =
      { db with resetTokens :=
          removeTokensForUser user.id db.resetTokens ++ [⟨freshToken, user.id, now + 3600000⟩] } := by
  unfold forgotPassword
  rw [huser]
  cases senderConfigured <;> cases emailSendOk <;> rfl

/-! ## Concrete records used by the evaluation theorems -/

/-- A sample email/password user. -/
def sampleUser : User :=
  { id := 42, name := "Ann", email := "ann@x.com", hashed_password := some "h42",
    email_verified := false, provider := "email", provider_id := none }

/-- A store holding only `sampleUser`. -/
def sampleDB : DB := { users := [sampleUser], sessions := [], resetTokens := [] }

/-- A valid reset-token row for `sampleUser`. -/
def sampleToken : ResetTokenRow := { token := "tok-1", userId := 42, expiresAt := 1000 }

/-- A store holding `sampleUser` and a valid reset token. -/
def sampleTokenDB : DB := { users := [sampleUser], sessions := [], resetTokens := [sampleToken] }

/-- A store holding `sampleUser` and a previously issued reset token. -/
def sampleOldTokenDB : DB :=
  { users := [sampleUser], sessions := [],
    resetTokens := [{ token := "old-tok", userId := 42, expiresAt := 5000 }] }

/-! ## Claim theorems -/

/-- C6: for every store, email, fresh token, time, sender configuration and
email-send outcome, `forgotPassword` returns the identical generic success
result — the same success flag and the same message string — whether or not
a user with that email exists and whether or not the outbound email was
sent; send failure never changes the returned result. -/
theorem C6_forgotPassword_uniform_success (db : DB) (email freshToken : String)
    (now : Int) (senderConfigured emailSendOk : Bool) :
    (forgotPassword db email freshToken now senderConfigured emailSendOk).2 =
      ActionResult.success genericResetMsg := by
  unfold forgotPassword
  cases h : findUserByEmail db.users email with
  | none => rfl
  | some user => cases senderConfigured <;> cases emailSendOk <;> rfl

/-- C9: whenever `signin` fails authentication — no user with the email, a
null stored hash (provider-only account), or a password that does not match
the stored hash — the returned failure result is the identical value in all
three cases, so the caller cannot tell which condition caused the
rejection. -/
theorem C9_signin_failures_identical (compare : String → String → Bool)
    (db : DB) (email password : String)
    (h : findUserByEmail db.users email = none ∨
         (∃ u, findUserByEmail db.users email = some u ∧ u.hashed_password = none) ∨
         (∃ u hp, findUserByEmail db.users email = some u ∧
            u.hashed_password = some hp ∧ compare password hp = false)) :
    signin compare db email password =
      SigninOutcome.failure [("email", ["Invalid credentials"])] := by
  rcases h with h | ⟨u, hu, hp⟩ | ⟨u, hp, hu, hh, hc⟩
  · simp [signin, h]
  · simp [signin, hu, hp]
  · simp [signin, hu, hh, hc]

/-- Witness for C9 at a concrete input: signin against an empty store. -/
theorem C9_witness :
    signin (fun _ _ => true) { users := [], sessions := [], resetTokens := [] }
        "ann@x.com" "pw" =
      SigninOutcome.failure [("email", ["Invalid credentials"])] :=
  C9_signin_failures_identical (fun _ _ => true) _ "ann@x.com" "pw" (Or.inl rfl)

/-- C1: on every successful email/password signin, the value written to the
`session` cookie is exactly the decimal rendering of the signed-in user's
id — a deterministic function of the user id, not an unguessable random
identifier. -/
theorem C1_session_cookie_is_user_id (compare : String → String → Bool)
    (db : DB) (email password cv rd : String) (u : User)
    (hf : findUserByEmail db.users email = some u)
    (h : signin compare db email password = SigninOutcome.success cv rd) :
    cv = toString u.id ∧ rd = "/dashboard" := by
  unfold signin at h
  rw [hf] at h
  cases hhp : u.hashed_password with
  | none =>
    simp [hhp] at h
  | some hp =>
    by_cases hc : compare password hp = true
    · simp [hhp, hc] at h
      exact ⟨h.1.symm, h.2.symm⟩
    · simp [hhp, hc] at h

/-- Witness for C1: the cookie written for `sampleUser` (id 42) is the
string `42`. -/
theorem C1_witness : "42" = toString sampleUser.id ∧ "/dashboard" = "/dashboard" :=
  C1_session_cookie_is_user_id (fun _ _ => true) sampleDB "ann@x.com" "pw"
    "42" "/dashboard" sampleUser (by decide) (by decide)

/-- C10: `getCurrentUser` never consults the sessions table and applies no
expiry check; it returns `none` exactly when the `session` cookie is
absent, its value does not `parseInt` to an integer, or no user row has
that id; and for every cookie whose value parses to an existing user's id
it returns that user's record. -/
theorem C10_getCurrentUser_characterization (db : DB) (c : Option String) :
    (∀ sess : List SessionRow,
        getCurrentUser { db with sessions := sess } c = getCurrentUser db c) ∧
    (getCurrentUser db c = none ↔
       c = none ∨ (∃ s, c = some s ∧ parseIntJS10 s = none) ∨
       (∃ s n, c = some s ∧ parseIntJS10 s = some n ∧ findUserById db.users n = none)) ∧
    (∀ s n u, c = some s → parseIntJS10 s = some n → findUserById db.users n = some u →
       getCurrentUser db c = some u) := by
  refine ⟨fun sess => rfl, ?_, ?_⟩
  · cases c with
    | none => simp [getCurrentUser]
    | some s =>
      cases hp : parseIntJS10 s with
      | none => simp [getCurrentUser, hp]
      | some n =>
        cases hf : findUserById db.users n with
        | none => simp [getCurrentUser, hp, hf]
        | some u => simp [getCurrentUser, hp, hf]
  · rintro s n u rfl hp hf
    simp [getCurrentUser, hp, hf]

/-- Witness for C10: the cookie value `42` names `sampleUser` and is
accepted with no session row in the store. -/
theorem C10_witness : getCurrentUser sampleDB (some "42") = some sampleUser :=
  (C10_getCurrentUser_characterization sampleDB (some "42")).2.2 "42" 42 sampleUser
    rfl (by decide) (by decide)

/-- C8 counterexample: with a `session` cookie present but carrying the
empty value, a request to the protected path is still redirected, although
the claim predicts pass-through whenever the cookie is present. -/
theorem C8_counterexample :
    (some "" : Option String) ≠ none ∧
    middleware "/dashboard" (some "") =
      MiddlewareResult.redirect "/signin" [("callbackUrl", "/dashboard")] := by
  exact ⟨by simp, by decide⟩

/-- C8 (amended): the guard redirects to the signin page with the original
path as `callbackUrl` iff the path matches a configured protected prefix
and the session cookie is absent or has an empty value; in every other
case it passes the request through unchanged.  The guard takes no store:
it reads only the cookie. -/
theorem C8_guard_characterization (pathname : String) (c : Option String) :
    (middleware pathname c =
        MiddlewareResult.redirect "/signin" [("callbackUrl", pathname)] ↔
      (protectedRoutes.any (fun route => strStartsWith pathname route) = true ∧
        (c = none ∨ c = some ""))) ∧
    (middleware pathname c = MiddlewareResult.next ↔
      ¬(protectedRoutes.any (fun route => strStartsWith pathname route) = true ∧
        (c = none ∨ c = some ""))) := by
  rcases c with _ | v
  · by_cases hp : protectedRoutes.any (fun route => strStartsWith pathname route) = true
    · simp [middleware, hp]
    · simp [middleware, hp]
  · by_cases hv : v = ""
    · subst hv
      by_cases hp : protectedRoutes.any (fun route => strStartsWith pathname route) = true
      · simp [middleware, hp]
      · simp [middleware, hp]
    · by_cases hp : protectedRoutes.any (fun route => strStartsWith pathname route) = true
      · simp [middleware, hp, hv]
      · simp [middleware, hp, hv]

/-- When the state/code guard passes, both transient cookies are deleted on
every subsequent branch: provider failure, missing email, existing user,
email conflict, and fresh user creation. -/
theorem callback_deletes_cookies_of_pass (validateCb : String → Option GoogleProfile)
    (fuid : Nat) (fsid : String) (sexp : Int) (db : DB) (code sst v : String) :
    (handleGoogleOAuthCallback validateCb fuid fsid sexp db
        ⟨some code, some sst, some sst, some v⟩).stateCookieDeleted = true ∧
    (handleGoogleOAuthCallback validateCb fuid fsid sexp db
        ⟨some code, some sst, some sst, some v⟩).verifierCookieDeleted = true := by
  cases hcb : validateCb code with
  | none => simp [handleGoogleOAuthCallback, hcb]
  | some gu =>
    cases hem : gu.email with
    | none => simp [handleGoogleOAuthCallback, hcb, hem]
    | some em =>
      cases hex : findUserByProviderId db.users gu.sub with
      | some ex => simp [handleGoogleOAuthCallback, hcb, hem, hex]
      | none =>
        by_cases he : (findUserByEmail db.users em).isSome = true
        · simp [handleGoogleOAuthCallback, hcb, hem, hex, he]
        · simp [handleGoogleOAuthCallback, hcb, hem, hex, he]

/-- C2 (amended): `handleGoogleOAuthCallback` deletes the
`google_oauth_state` and `google_code_verifier` cookies iff the state/code
validation passes; when validation fails (query state or code absent, a
cookie absent, or state values differing) it returns with both cookies
left in place. -/
theorem C2_cookies_deleted_iff_validation (validateCb : String → Option GoogleProfile)
    (fuid : Nat) (fsid : String) (sexp : Int) (db : DB) (input : CallbackInput) :
    ((handleGoogleOAuthCallback validateCb fuid fsid sexp db input).stateCookieDeleted = true ∧
     (handleGoogleOAuthCallback validateCb fuid fsid sexp db input).verifierCookieDeleted = true)
      ↔ callbackValidationPasses input := by
  rcases input with ⟨qc, qs, cs, cv⟩
  rcases qc with _ | code <;> rcases qs with _ | st <;>
    rcases cs with _ | sst <;> rcases cv with _ | v
  case some.some.some.some =>
    by_cases h : st = sst
    · subst h
      constructor
      · intro _
        exact ⟨code, st, st, v, rfl, rfl, rfl, rfl, rfl⟩
      · intro _
        exact callback_deletes_cookies_of_pass validateCb fuid fsid sexp db code st v
    · simp [handleGoogleOAuthCallback, callbackValidationPasses, h]
  all_goals simp [handleGoogleOAuthCallback, callbackValidationPasses]

/-- C2 counterexample: a callback arriving with the query `state` absent is
rejected by the guard and leaves both transient cookies in place, although
the claim says they are deleted regardless of outcome. -/
theorem C2_counterexample :
    (handleGoogleOAuthCallback (fun _ => none) 0 "" 0 ⟨[], [], []⟩
        ⟨some "c", none, some "s", some "v"⟩).stateCookieDeleted = false ∧
    (handleGoogleOAuthCallback (fun _ => none) 0 "" 0 ⟨[], [], []⟩
        ⟨some "c", none, some "s", some "v"⟩).verifierCookieDeleted = false :=
  ⟨rfl, rfl⟩

/-- C3: whenever the query `state` is absent, the stored state cookie is
absent, the two differ, or the query `code` is absent, the callback
returns the state-mismatch failure, never contacts the provider, and
leaves the store unchanged. -/
theorem C3_invalid_callback_rejected_before_provider
    (validateCb : String → Option GoogleProfile) (fuid : Nat) (fsid : String)
    (sexp : Int) (db : DB) (input : CallbackInput)
    (h : input.queryState = none ∨ input.cookieState = none ∨
         (∃ s st, input.queryState = some s ∧ input.cookieState = some st ∧ s ≠ st) ∨
         input.queryCode = none) :
    (handleGoogleOAuthCallback validateCb fuid fsid sexp db input).result =
        CallbackResult.err "Authentication failed (state or code verifier mismatch)." ∧
    (handleGoogleOAuthCallback validateCb fuid fsid sexp db input).providerCalled = false ∧
    (handleGoogleOAuthCallback validateCb fuid fsid sexp db input).db = db := by
  rcases input with ⟨qc, qs, cs, cv⟩
  rcases qc with _ | code <;> rcases qs with _ | st <;>
    rcases cs with _ | sst <;> rcases cv with _ | v <;>
    simp_all [handleGoogleOAuthCallback]

/-- Witness for C3 at a concrete input: `code` absent, matching states. -/
theorem C3_witness :
    (handleGoogleOAuthCallback (fun _ => none) 0 "" 0 ⟨[], [], []⟩
        ⟨none, some "a", some "a", some "v"⟩).result =
        CallbackResult.err "Authentication failed (state or code verifier mismatch)." ∧
    (handleGoogleOAuthCallback (fun _ => none) 0 "" 0 ⟨[], [], []⟩
        ⟨none, some "a", some "a", some "v"⟩).providerCalled = false ∧
    (handleGoogleOAuthCallback (fun _ => none) 0 "" 0 ⟨[], [], []⟩
        ⟨none, some "a", some "a", some "v"⟩).db = ⟨[], [], []⟩ :=
  C3_invalid_callback_rejected_before_provider (fun _ => none) 0 "" 0 ⟨[], [], []⟩
    ⟨none, some "a", some "a", some "v"⟩ (Or.inr (Or.inr (Or.inr rfl)))

/-- C4: (i) a reset token validates iff a stored row with that token exists
and is unexpired — consumption being deletion of the row; (ii) with a
valid token, `resetPassword` updates the owner's hashed password and
deletes every row carrying the token in the one store it returns;
(iii) re-submitting that token against the resulting store always fails
with the invalid-or-expired error. -/
theorem C4_reset_token_single_use (hash : String → String) (db : DB)
    (t password : String) (now : Int) (row : ResetTokenRow) (user : User)
    (hrow : findValidToken db.resetTokens t now = some row)
    (huser : findUserById db.users (row.userId : Int) = some user) :
    (∀ (l : List ResetTokenRow) (t2 : String) (n2 : Int),
        (findValidToken l t2 n2).isSome ↔ ∃ r ∈ l, r.token = t2 ∧ n2 < r.expiresAt) ∧
    resetPassword hash db t password now =
      ({ db with users := setHashedPassword user.id (hash password) db.users,
                 resetTokens := removeTokensNamed t db.resetTokens },
       ActionResult.success "Your password has been successfully reset.") ∧
    (∀ (hash2 : String → String) (password2 : String) (now2 : Int),
        resetPassword hash2 (resetPassword hash db t password now).1 t password2 now2 =
          ((resetPassword hash db t password now).1,
           ActionResult.failure [("_form", ["Invalid or expired reset token."])])) := by
  have hrun : resetPassword hash db t password now =
      ({ db with users := setHashedPassword user.id (hash password) db.users,
                 resetTokens := removeTokensNamed t db.resetTokens },
       ActionResult.success "Your password has been successfully reset.") := by
    unfold resetPassword
    rw [hrow]
    simp only [huser]
  refine ⟨findValidToken_isSome_iff, hrun, ?_⟩
  intro hash2 password2 now2
  rw [hrun]
  unfold resetPassword
  rw [show findValidToken
        ({ db with users := setHashedPassword user.id (hash password) db.users,
                   resetTokens := removeTokensNamed t db.resetTokens } : DB).resetTokens t now2
      = none from findValidToken_removeTokensNamed t db.resetTokens now2]

/-- Witness for C4: the sample store with one valid token; the action
succeeds and the replayed token fails. -/
theorem C4_witness :
    resetPassword (fun _ => "H") sampleTokenDB "tok-1" "newpassword" 0 =
      ({ sampleTokenDB with
           users := setHashedPassword sampleUser.id "H" sampleTokenDB.users,
           resetTokens := removeTokensNamed "tok-1" sampleTokenDB.resetTokens },
       ActionResult.success "Your password has been successfully reset.") ∧
    resetPassword (fun _ => "H") (resetPassword (fun _ => "H") sampleTokenDB "tok-1" "newpassword" 0).1
        "tok-1" "again" 99 =
      ((resetPassword (fun _ => "H") sampleTokenDB "tok-1" "newpassword" 0).1,
       ActionResult.failure [("_form", ["Invalid or expired reset token."])]) := by
  have h := C4_reset_token_single_use (fun _ => "H") sampleTokenDB "tok-1" "newpassword" 0
    sampleToken sampleUser (by decide) (by decide)
  exact ⟨h.2.1, h.2.2 (fun _ => "H") "again" 99⟩

/-- C5: after `forgotPassword` issues a fresh token for an existing user,
that user's reset-token rows consist of the fresh row alone — every prior
row for the user was deleted before the insert — and any earlier token of
that user no longer validates at any time. -/
theorem C5_second_token_invalidates_first (db : DB) (email freshToken : String)
    (now : Int) (senderConfigured emailSendOk : Bool) (user : User) (oldToken : String)
    (huser : findUserByEmail db.users email = some user)
    (hold : ∀ r ∈ db.resetTokens, r.token = oldToken → r.userId = user.id)
    (hne : oldToken ≠ freshToken) :
    (∀ r ∈ (forgotPassword db email freshToken now senderConfigured emailSendOk).1.resetTokens,
        r.userId = user.id → r = ⟨freshToken, user.id, now + 3600000⟩) ∧
    (⟨freshToken, user.id, now + 3600000⟩ : ResetTokenRow) ∈
        (forgotPassword db email freshToken now senderConfigured emailSendOk).1.resetTokens ∧
    (∀ now2 : Int,
        findValidToken
          (forgotPassword db email freshToken now senderConfigured emailSendOk).1.resetTokens
          oldToken now2 = none) := by
  rw [forgotPassword_store db email freshToken now senderConfigured emailSendOk user huser]
  refine ⟨?_, ?_, ?_⟩
  · intro r hr hru
    rcases List.mem_append.mp hr with hr | hr
    · exact absurd hru ((mem_removeTokensForUser _ _ _).mp hr).2
    · simpa using hr
  · exact List.mem_append.mpr (Or.inr (List.mem_singleton.mpr rfl))
  · intro now2
    rw [findValidToken_eq_none_iff]
    rintro ⟨r, hr, hrt, _⟩
    rcases List.mem_append.mp hr with hr | hr
    · obtain ⟨hmem, hnu⟩ := (mem_removeTokensForUser _ _ _).mp hr
      exact hnu (hold r hmem hrt)
    · have hrw : r = ⟨freshToken, user.id, now + 3600000⟩ := by simpa using hr
      rw [hrw] at hrt
      exact hne hrt.symm

/-- Witness for C5: issuing `new-tok` for the sample user makes the earlier
`old-tok` fail validation. -/
theorem C5_witness :
    findValidToken (forgotPassword sampleOldTokenDB "ann@x.com" "new-tok" 0 true true).1.resetTokens
      "old-tok" 123 = none :=
  (C5_second_token_invalidates_first sampleOldTokenDB "ann@x.com" "new-tok" 0 true true
    sampleUser "old-tok" (by decide) (by decide) (by decide)).2.2 123

/-- C7: on a callback that passed validation and produced a profile with an
email, account resolution keys solely on the provider subject id:
(i) when a user with `provider_id` equal to the Google `sub` exists, that
user's id is reused and no user is created; (ii) when none exists and the
profile email collides with no stored email, a fresh user is created with
provider `google`, `provider_id` the subject, `email_verified` true and a
null hashed password; (iii) when none exists, the result never reuses a
pre-existing user's id — the profile email is never used to link. -/
theorem C7_provider_subject_is_sole_key (validateCb : String → Option GoogleProfile)
    (fuid : Nat) (fsid : String) (sexp : Int) (db : DB) (code sst v em : String)
    (gu : GoogleProfile)
    (hcb : validateCb code = some gu)
    (hem : gu.email = some em) :
    (∀ ex : User, findUserByProviderId db.users gu.sub = some ex →
        (handleGoogleOAuthCallback validateCb fuid fsid sexp db
            ⟨some code, some sst, some sst, some v⟩).result = CallbackResult.ok ex.id ∧
        (handleGoogleOAuthCallback validateCb fuid fsid sexp db
            ⟨some code, some sst, some sst, some v⟩).db.users = db.users) ∧
    (findUserByProviderId db.users gu.sub = none →
      findUserByEmail db.users em = none →
        (handleGoogleOAuthCallback validateCb fuid fsid sexp db
            ⟨some code, some sst, some sst, some v⟩).result = CallbackResult.ok fuid ∧
        (handleGoogleOAuthCallback validateCb fuid fsid sexp db
            ⟨some code, some sst, some sst, some v⟩).db.users =
          db.users ++ [{ id := fuid, name := gu.name.getD "Google User", email := em,
                         hashed_password := none, email_verified := true,
                         provider := "google", provider_id := some gu.sub }]) ∧
    (findUserByProviderId db.users gu.sub = none →
      ∀ u ∈ db.users, u.id ≠ fuid →
        (handleGoogleOAuthCallback validateCb fuid fsid sexp db
            ⟨some code, some sst, some sst, some v⟩).result ≠ CallbackResult.ok u.id) := by
  refine ⟨?_, ?_, ?_⟩
  · intro ex hex
    constructor
    · simp [handleGoogleOAuthCallback, hcb, hem, hex]
    · simp [handleGoogleOAuthCallback, hcb, hem, hex]
  · intro hex hmail
    constructor
    · simp [handleGoogleOAuthCallback, hcb, hem, hex, hmail]
    · simp [handleGoogleOAuthCallback, hcb, hem, hex, hmail]
  · intro hex u hu hne
    by_cases hmail : (findUserByEmail db.users em).isSome = true
    · simp [handleGoogleOAuthCallback, hcb, hem, hex, hmail]
    · simp [handleGoogleOAuthCallback, hcb, hem, hex, hmail]
      exact fun hid => hne hid.symm

/-- Witness for C7: with no provider match and a fresh profile email, a new
Google user is appended and its id returned, leaving `sampleUser`
untouched. -/
theorem C7_witness :
    (handleGoogleOAuthCallback
        (fun _ => some { sub := "g-sub", email := some "bob@x.com", name := none })
        7 "sid" 0 sampleDB ⟨some "c", some "a", some "a", some "v"⟩).result =
      CallbackResult.ok 7 ∧
    (handleGoogleOAuthCallback
        (fun _ => some { sub := "g-sub", email := some "bob@x.com", name := none })
        7 "sid" 0 sampleDB ⟨some "c", some "a", some "a", some "v"⟩).db.users =
      sampleDB.users ++ [{ id := 7, name := (none : Option String).getD "Google User",
                           email := "bob@x.com", hashed_password := none,
                           email_verified := true, provider := "google",
                           provider_id := some "g-sub" }] :=
  (C7_provider_subject_is_sole_key
      (fun _ => some { sub := "g-sub", email := some "bob@x.com", name := none })
      7 "sid" 0 sampleDB "c" "a" "v" "bob@x.com"
      { sub := "g-sub", email := some "bob@x.com", name := none } rfl rfl).2.1
    (by decide) (by decide)

end MeetAI
